import Mathlib

/-!
Shallow embedding of `src/bot.py` (MSMAXPRO-Ai-Mentor): a Telegram bot that
relays user messages to a generative-AI completion service, tracks daily
active users, and serves a set of canned commands.

Modelling conventions:
* A calendar date is a `Nat`; a Telegram user identifier is an `Int`.
* The module-level dict `daily_users : date -> set of user ids` is an
  association list `List (Date × Finset UserId)`; a key absent from the list
  is a key absent from the dict.
* The generative-AI client (`model.generate_content`) is a parameter
  `gen : String → Except String String`: `Except.error e` is the call raising
  exception detail `e`, `Except.ok r` a response whose `.text` is `r`.
* The Telegram send operation (`update.message.reply_text`) is a parameter
  `send : String → Except String Unit` with the same convention.
* Each handler returns `Except String HandlerOut`: `Except.error` would be an
  exception escaping the handler, `Except.ok` normal completion carrying the
  new `daily_users` state, the texts handed to `safe_reply` (in order), the
  prompts passed to `generate_content` (in order), and the handler's own log
  lines.  A Python `try/except Exception` over a fallible call is embedded as
  a `match` on its `Except` result.
-/

abbrev Date := Nat
abbrev UserId := Int

/-- A Telegram message object: `message.text` may be `None`. -/
structure MessageObj where
  text : Option String
deriving DecidableEq

/-- The `update.effective_user` object: id, first name, optional username. -/
structure UserObj where
  id : UserId
  first_name : String
  username : Option String
deriving DecidableEq

/-- A Telegram update: `update.message` may be `None`. -/
structure UpdateObj where
  message : Option MessageObj
  effective_user : UserObj
deriving DecidableEq

/-- The module-level `daily_users` dict: date -> set of user ids seen. -/
abbrev DailyUsers := List (Date × Finset UserId)

/-- `d' in daily_users` / `daily_users[d']` : lookup of a date key. -/
def lookupDay : DailyUsers → Date → Option (Finset UserId)
  | [], _ => none
  | (d, s) :: rest, q => if d = q then some s else lookupDay rest q

/-- `daily_users[d] = s` : write a date key (overwrite if present, append
if absent, as a dict assignment does). -/
def setDay : DailyUsers → Date → Finset UserId → DailyUsers
  | [], d, s => [(d, s)]
  | (d', s') :: rest, d, s =>
      if d' = d then (d, s) :: rest else (d', s') :: setDay rest d s

/-- The per-day set read with a default: `daily_users.get(d, set())`. -/
def daySet (m : DailyUsers) (d : Date) : Finset UserId :=
  (lookupDay m d).getD ∅

/-- `track_user` (bot.py:51): create the set for today if absent, then add
the user id.  `setDay m today (insert uid (daySet m today))` is exactly
"create empty set if key missing, then `.add(user_id)`". -/
def track_user (m : DailyUsers) (today : Date) (user_id : UserId) : DailyUsers :=
  setDay m today (insert user_id (daySet m today))

/-- `len(daily_users.get(date.today(), set()))` (bot.py:211). -/
def countDay (m : DailyUsers) (d : Date) : Nat :=
  (daySet m d).card

/-- A sequence of `track_user` calls on the same day (left to right). -/
def recordAll : DailyUsers → Date → List UserId → DailyUsers
  | m, _, [] => m
  | m, d, uid :: rest => recordAll (track_user m d uid) d rest

/-- The behaviour of `update.message.reply_text`: raising is `Except.error`. -/
abbrev SendFn := String → Except String Unit

/-- The behaviour of `model.generate_content`: raising is `Except.error`. -/
abbrev GenFn := String → Except String String

/-- What a `safe_reply` call did: the send attempts actually made through the
messaging client (their texts) and the log lines emitted. -/
structure SafeReplyResult where
  attempts : List String
  logs : List String
deriving DecidableEq

def invalidUpdateLog : String := "safe_reply called with invalid update object."

/-- Python truthiness of `update and update.message`: `False` when the update
is `None` or its `message` is `None`. -/
def updateTruthy : Option UpdateObj → Bool
  | none => false
  | some u => u.message.isSome

/-- `safe_reply` (bot.py:59): if the update is falsy or has no message, log a
warning and return; otherwise attempt the send, catching any exception and
logging it.  The result type is `Except String SafeReplyResult` so that an
exception escaping to the caller would be an `Except.error`; the catch-all
`except` is the `match` on the send's result. -/
def safe_reply (send : SendFn) (update : Option UpdateObj) (text : String) :
    Except String SafeReplyResult :=
  match update with
  | none => Except.ok ⟨[], [invalidUpdateLog]⟩
  | some u =>
    match u.message with
    | none => Except.ok ⟨[], [invalidUpdateLog]⟩
    | some _ =>
      match send text with
      | Except.ok _ => Except.ok ⟨[text], []⟩
      | Except.error e => Except.ok ⟨[text], ["Telegram reply failed: " ++ e]⟩

/-- What a handler did: final `daily_users` state, the texts it handed to
`safe_reply` (in order), the prompts it passed to `generate_content`
(in order), and its own log lines. -/
structure HandlerOut where
  state : DailyUsers
  replies : List String
  aiCalls : List String
  logs : List String

def startMessage (first_name : String) : String :=
  "Hello " ++ first_name ++ "! Main aapka AI dost hoon.\n\n" ++
  "Coding, career, ya padhai se juda koi sawaal hai to pooch sakte ho!\n\n" ++
  "Please use this bot responsibly. Use /help to see all available commands."

/-- `start` (bot.py:73): track, then send the welcome message. -/
def start (u : UpdateObj) (m : DailyUsers) (today : Date) :
    Except String HandlerOut :=
  Except.ok
    { state := track_user m today u.effective_user.id
      replies := [startMessage u.effective_user.first_name]
      aiCalls := []
      logs := [] }

def helpText : String :=
  "Here are the available commands:\n\n" ++
  "/start - To start or restart the bot\n" ++
  "/help - Shows this list of commands\n" ++
  "/website - Visit our official website\n" ++
  "/roadmaps - Get a link to all career roadmaps\n" ++
  "/blog - Get a link to our blog posts\n" ++
  "/dsa - Get a random DSA practice problem\n" ++
  "/connect - Connect with the developer\n" ++
  "/idea - Get a new project idea\n" ++
  "/explain [concept] - Ask the AI to explain a concept\n" ++
  "/clear - Information on how to clear chat\n" ++
  "/feedback [message] - Send your feedback"

/-- `help_command` (bot.py:86): track, then send the command list. -/
def help_command (u : UpdateObj) (m : DailyUsers) (today : Date) :
    Except String HandlerOut :=
  Except.ok
    { state := track_user m today u.effective_user.id
      replies := [helpText]
      aiCalls := []
      logs := [] }

/-- `website` (bot.py:107): track, then send static text with a link button. -/
def website (u : UpdateObj) (m : DailyUsers) (today : Date) :
    Except String HandlerOut :=
  Except.ok
    { state := track_user m today u.effective_user.id
      replies := ["Click the button below to visit our official website!"]
      aiCalls := []
      logs := [] }

/-- `roadmaps` (bot.py:116): track, then send static text with a link button. -/
def roadmaps (u : UpdateObj) (m : DailyUsers) (today : Date) :
    Except String HandlerOut :=
  Except.ok
    { state := track_user m today u.effective_user.id
      replies := ["Click the button below to explore all the career roadmaps!"]
      aiCalls := []
      logs := [] }

/-- `blog` (bot.py:125): track, then send static text with a link button. -/
def blog (u : UpdateObj) (m : DailyUsers) (today : Date) :
    Except String HandlerOut :=
  Except.ok
    { state := track_user m today u.effective_user.id
      replies := ["Click the button below to read our latest blog posts."]
      aiCalls := []
      logs := [] }

/-- `connect` (bot.py:145): track, then send static text with link buttons. -/
def connect (u : UpdateObj) (m : DailyUsers) (today : Date) :
    Except String HandlerOut :=
  Except.ok
    { state := track_user m today u.effective_user.id
      replies := ["You can connect with me on these platforms:"]
      aiCalls := []
      logs := [] }

def dsaPrompt : String :=
  "Give me a beginner-friendly DSA (Data Structures and Algorithms) practice problem. State the problem clearly, provide a hint, but do not provide the solution."

def dsaInterim : String := "Finding a good DSA problem for you..."

def dsaFailText : String :=
  "Sorry, I couldn't find a problem right now. Please try again later."

/-- `dsa` (bot.py:134): track, interim reply, then the AI call inside
`try/except`; on failure log and send the fixed failure text. -/
def dsa (gen : GenFn) (u : UpdateObj) (m : DailyUsers) (today : Date) :
    Except String HandlerOut :=
  match gen dsaPrompt with
  | Except.ok r =>
      Except.ok
        { state := track_user m today u.effective_user.id
          replies := [dsaInterim, r]
          aiCalls := [dsaPrompt]
          logs := [] }
  | Except.error e =>
      Except.ok
        { state := track_user m today u.effective_user.id
          replies := [dsaInterim, dsaFailText]
          aiCalls := [dsaPrompt]
          logs := ["--- GEMINI ERROR (in /dsa) --- \n Error: " ++ e] }

def ideaPrompt : String :=
  "Give me a simple but interesting project idea for a beginner programmer. Explain it in 2-3 lines."

def ideaInterim : String := "Thinking of a new idea for you..."

def ideaFailText : String :=
  "Sorry, I couldn't think of an idea right now. Please try again later."

/-- `idea` (bot.py:158): track, interim reply, then the AI call inside
`try/except`; on failure log and send the fixed failure text. -/
def idea (gen : GenFn) (u : UpdateObj) (m : DailyUsers) (today : Date) :
    Except String HandlerOut :=
  match gen ideaPrompt with
  | Except.ok r =>
      Except.ok
        { state := track_user m today u.effective_user.id
          replies := [ideaInterim, r]
          aiCalls := [ideaPrompt]
          logs := [] }
  | Except.error e =>
      Except.ok
        { state := track_user m today u.effective_user.id
          replies := [ideaInterim, ideaFailText]
          aiCalls := [ideaPrompt]
          logs := ["--- GEMINI ERROR (in /idea) --- \n Error: " ++ e] }

def explainUsageText : String :=
  "Please provide a concept to explain. Example: /explain Python lists"

def explainInterim (concept : String) : String :=
  "Thinking... Let me explain '" ++ concept ++ "' for you."

def explainPrompt (concept : String) : String :=
  "Explain the concept of '" ++ concept ++ "' in a simple and easy-to-understand way for a beginner student."

def explainFailText (concept : String) : String :=
  "Sorry, I couldn't explain '" ++ concept ++ "' right now. Please try again later."

/-- `explain` (bot.py:169): track first, then if `context.args` is empty send
usage guidance and stop; otherwise interim reply, then the AI call inside
`try/except`; on failure log and send the failure text for the concept. -/
def explain (gen : GenFn) (u : UpdateObj) (args : List String) (m : DailyUsers)
    (today : Date) : Except String HandlerOut :=
  if args.isEmpty then
    Except.ok
      { state := track_user m today u.effective_user.id
        replies := [explainUsageText]
        aiCalls := []
        logs := [] }
  else
    match gen (explainPrompt (String.intercalate " " args)) with
    | Except.ok r =>
        Except.ok
          { state := track_user m today u.effective_user.id
            replies := [explainInterim (String.intercalate " " args), r]
            aiCalls := [explainPrompt (String.intercalate " " args)]
            logs := [] }
    | Except.error e =>
        Except.ok
          { state := track_user m today u.effective_user.id
            replies := [explainInterim (String.intercalate " " args),
                        explainFailText (String.intercalate " " args)]
            aiCalls := [explainPrompt (String.intercalate " " args)]
            logs := ["--- GEMINI ERROR (in /explain) --- \n Error: " ++ e] }

def clearChatText : String :=
  "For your privacy, a Telegram bot cannot clear your chat history.\n\nTo clear the chat, please tap the three dots (⋮) at the top right of this chat and select 'Clear history'."

/-- `clear_chat` (bot.py:185): track, then send static instructional text. -/
def clear_chat (u : UpdateObj) (m : DailyUsers) (today : Date) :
    Except String HandlerOut :=
  Except.ok
    { state := track_user m today u.effective_user.id
      replies := [clearChatText]
      aiCalls := []
      logs := [] }

/-- `update.effective_user.username or update.effective_user.first_name`:
Python truthiness, so `None` and the empty string both fall back. -/
def displayName (user : UserObj) : String :=
  match user.username with
  | some s => if s = "" then user.first_name else s
  | none => user.first_name

def feedbackUsageText : String :=
  "Please write your feedback after the command. Example: /feedback This is a great bot!"

def feedbackThanksText : String :=
  "Thank you for your feedback! It has been sent to the developer."

/-- `feedback` (bot.py:194): track first, then if `context.args` is empty send
usage guidance; otherwise log the feedback and send a thank-you. -/
def feedback (u : UpdateObj) (args : List String) (m : DailyUsers)
    (today : Date) : Except String HandlerOut :=
  if args.isEmpty then
    Except.ok
      { state := track_user m today u.effective_user.id
        replies := [feedbackUsageText]
        aiCalls := []
        logs := [] }
  else
    Except.ok
      { state := track_user m today u.effective_user.id
        replies := [feedbackThanksText]
        aiCalls := []
        logs := ["FEEDBACK Received from " ++ displayName u.effective_user ++
                 ": " ++ String.intercalate " " args] }

/-- Python truthiness of `ADMIN_ID and update.effective_user.id == ADMIN_ID`
(bot.py:209): `ADMIN_ID` is `None` (unset or unparsable) or an `Int`, and both
`None` and `0` are falsy. -/
def adminMatches (adminId : Option Int) (callerId : Int) : Bool :=
  match adminId with
  | none => false
  | some a => a != 0 && callerId == a

def statsText (n : Nat) : String :=
  "📊 Today's unique active users: " ++ toString n

def statsUnauthorizedLog (callerId : Int) : String :=
  "Unauthorized access attempt for /stats by user " ++ toString callerId

/-- `stats` (bot.py:208): if the truthy admin check passes, reply with the
count for today; otherwise only log a warning.  Note it never calls
`track_user` and never writes `daily_users`. -/
def stats (adminId : Option Int) (u : UpdateObj) (m : DailyUsers)
    (today : Date) : Except String HandlerOut :=
  if adminMatches adminId u.effective_user.id then
    Except.ok
      { state := m
        replies := [statsText (countDay m today)]
        aiCalls := []
        logs := [] }
  else
    Except.ok
      { state := m
        replies := []
        aiCalls := []
        logs := [statsUnauthorizedLog u.effective_user.id] }

/-- Python truthiness of `update.message and update.message.text`
(bot.py:221): `None` message, `None` text and the empty string all fail. -/
def messageText (u : UpdateObj) : Option String :=
  match u.message with
  | none => none
  | some msg =>
    match msg.text with
    | none => none
    | some t => if t = "" then none else some t

def hmFailText : String :=
  "Sorry, I'm having an issue connecting to my AI brain right now. The admin has been notified."

def hmNoTextLog : String := "Received an update without a message text."

def hmConfigErrorText : String :=
  "Internal configuration error. Please contact admin."

/-- `handle_message` (bot.py:219): ignore updates without truthy message text
(no tracking); otherwise track, check the global `model` exists (it does after
a successful startup; kept as the flag `modelDefined`), make the AI call
inside `try/except`, and on failure log and send the fixed failure text. -/
def handle_message (modelDefined : Bool) (gen : GenFn) (u : UpdateObj)
    (m : DailyUsers) (today : Date) : Except String HandlerOut :=
  match messageText u with
  | none =>
      Except.ok { state := m, replies := [], aiCalls := [], logs := [hmNoTextLog] }
  | some t =>
      if !modelDefined then
        Except.ok
          { state := track_user m today u.effective_user.id
            replies := [hmConfigErrorText]
            aiCalls := []
            logs := ["FATAL: Gemini 'model' is not defined globally."] }
      else
        match gen t with
        | Except.ok r =>
            Except.ok
              { state := track_user m today u.effective_user.id
                replies := [r]
                aiCalls := [t]
                logs := [] }
        | Except.error e =>
            Except.ok
              { state := track_user m today u.effective_user.id
                replies := [hmFailText]
                aiCalls := [t]
                logs := ["--- GEMINI ERROR ---",
                         "Failed to get AI response for message: '" ++ t ++ "'",
                         "Error Details: " ++ e,
                         "--------------------"] }

/-- Whether an exception escaped the handler. -/
def raised : Except String HandlerOut → Bool
  | Except.ok _ => false
  | Except.error _ => true

/-- The texts a handler handed to `safe_reply` (empty if it raised). -/
def repliesOf : Except String HandlerOut → List String
  | Except.ok o => o.replies
  | Except.error _ => []

/-- The prompts a handler passed to `generate_content` (empty if it raised). -/
def aiCallsOf : Except String HandlerOut → List String
  | Except.ok o => o.aiCalls
  | Except.error _ => []

/-- The handler's own log lines (empty if it raised). -/
def logsOf : Except String HandlerOut → List String
  | Except.ok o => o.logs
  | Except.error _ => []

/-- The `daily_users` state after the handler, with the pre-state as the
fallback should the handler have raised. -/
def stateOf (fallback : DailyUsers) : Except String HandlerOut → DailyUsers
  | Except.ok o => o.state
  | Except.error _ => fallback

/-- Whether `safe_reply` returned normally. -/
def srOk : Except String SafeReplyResult → Bool
  | Except.ok _ => true
  | Except.error _ => false

/-- The send attempts `safe_reply` made. -/
def srAttempts : Except String SafeReplyResult → List String
  | Except.ok r => r.attempts
  | Except.error _ => []

/-- The log lines `safe_reply` emitted. -/
def srLogs : Except String SafeReplyResult → List String
  | Except.ok r => r.logs
  | Except.error _ => []

/-- The invariant of §3 of the spec: no date key of `daily_users` is ever
associated with an empty set of user identifiers. -/
def NoEmptyDay (m : DailyUsers) : Prop := ∀ p ∈ m, p.2 ≠ (∅ : Finset UserId)

/-- A completion relay that raises on every invocation. -/
def failGen : GenFn := fun _ => Except.error "boom"

/-- A messaging client whose send raises on every invocation. -/
def failSend : SendFn := fun _ => Except.error "netfail"

/-- A well-formed update from user 7 with message text "hi". -/
def u0 : UpdateObj :=
  { message := some { text := some "hi" }
    effective_user := { id := 7, first_name := "A", username := none } }

/-- An update whose message is absent. -/
def uNone : UpdateObj :=
  { message := none
    effective_user := { id := 9, first_name := "B", username := none } }

/-- A well-formed update from user 0. -/
def uAdmin0 : UpdateObj :=
  { message := some { text := some "/stats" }
    effective_user := { id := 0, first_name := "Z", username := none } }

/-- A well-formed update from user 5. -/
def uAdmin5 : UpdateObj :=
  { message := some { text := some "/stats" }
    effective_user := { id := 5, first_name := "M", username := none } }

/-! ### Lemmas about the usage tracker -/

theorem lookupDay_setDay_self (m : DailyUsers) (d : Date) (s : Finset UserId) :
    lookupDay (setDay m d s) d = some s := by
  induction m with
  | nil => simp [setDay, lookupDay]
  | cons p rest ih =>
    obtain ⟨d', s'⟩ := p
    by_cases h : d' = d
    · simp [setDay, h, lookupDay]
    · simp [setDay, h, lookupDay, ih]

theorem daySet_track (m : DailyUsers) (d : Date) (uid : UserId) :
    daySet (track_user m d uid) d = insert uid (daySet m d) := by
  simp [track_user, daySet, lookupDay_setDay_self]

theorem daySet_recordAll (m : DailyUsers) (d : Date) (uids : List UserId) :
    daySet (recordAll m d uids) d = daySet m d ∪ uids.toFinset := by
  induction uids generalizing m with
  | nil => simp [recordAll]
  | cons a as ih =>
    rw [recordAll, ih, daySet_track]
    rw [List.toFinset_cons, Finset.insert_union, Finset.union_insert]

theorem setDay_setDay (m : DailyUsers) (d : Date) (s t : Finset UserId) :
    setDay (setDay m d s) d t = setDay m d t := by
  induction m with
  | nil => simp [setDay]
  | cons p rest ih =>
    obtain ⟨d', s'⟩ := p
    by_cases h : d' = d
    · simp [setDay, h]
    · simp [setDay, h, ih]

theorem track_user_idem (m : DailyUsers) (d : Date) (uid : UserId) :
    track_user (track_user m d uid) d uid = track_user m d uid := by
  rw [track_user, daySet_track, Finset.insert_idem, track_user, setDay_setDay]

theorem mem_setDay (m : DailyUsers) (d : Date) (s : Finset UserId)
    (p : Date × Finset UserId) (hp : p ∈ setDay m d s) : p = (d, s) ∨ p ∈ m := by
  induction m with
  | nil => simpa [setDay] using hp
  | cons q rest ih =>
    obtain ⟨d', s'⟩ := q
    by_cases h : d' = d
    · simp only [setDay, if_pos h, List.mem_cons] at hp
      rcases hp with h1 | h1
      · exact Or.inl h1
      · exact Or.inr (List.mem_cons_of_mem _ h1)
    · simp only [setDay, if_neg h, List.mem_cons] at hp
      rcases hp with h1 | h1
      · exact Or.inr (by simp [h1])
      · rcases ih h1 with h2 | h2
        · exact Or.inl h2
        · exact Or.inr (List.mem_cons_of_mem _ h2)

/-! ### The claims about the usage tracker: C3, C7, C8 -/

/-- C3: for every sequence of sightings recorded on the same calendar day
starting from a state with no entry for that day, the count for that day
equals the number of distinct user identifiers in the sequence; and recording
the same identifier twice on the same day yields the same state as recording
it once (idempotent membership). -/
theorem track_user_distinct_count (m : DailyUsers) (d : Date)
    (uids : List UserId) (uid : UserId) (h : lookupDay m d = none) :
    countDay (recordAll m d uids) d = uids.toFinset.card ∧
    track_user (track_user m d uid) d uid = track_user m d uid := by
  refine ⟨?_, track_user_idem m d uid⟩
  have hd : daySet m d = ∅ := by simp [daySet, h]
  rw [countDay, daySet_recordAll, hd, Finset.empty_union]

/-- C3 witness: three sightings of two distinct users on a fresh day count 2,
and a duplicate sighting leaves the state unchanged. -/
theorem track_user_distinct_count_witness :
    lookupDay ([] : DailyUsers) 0 = none ∧
    countDay (recordAll [] 0 [5, 5, 7]) 0 = ([5, 5, 7] : List UserId).toFinset.card ∧
    track_user (track_user [] 0 5) 0 5 = track_user [] 0 5 :=
  ⟨rfl, (track_user_distinct_count [] 0 [5, 5, 7] 5 rfl).1,
    (track_user_distinct_count [] 0 [5, 5, 7] 5 rfl).2⟩

/-- C7: the count for a day with no recorded sightings is 0; the read does not
create an entry for the day. -/
theorem countDay_absent (m : DailyUsers) (d : Date)
    (h : lookupDay m d = none) : countDay m d = 0 := by
  simp [countDay, daySet, h]

/-- C7 witness: the empty map has no entry for day 0 and counts 0 there. -/
theorem countDay_absent_witness :
    lookupDay ([] : DailyUsers) 3 = none ∧ countDay ([] : DailyUsers) 3 = 0 :=
  ⟨rfl, countDay_absent [] 3 rfl⟩

/-- C8: the empty initial map has no date mapped to an empty set, and
`track_user` — the only operation that writes the mapping — preserves the
invariant, since it inserts the acting identifier into the set it writes. -/
theorem track_user_no_empty_day (m : DailyUsers) (d : Date) (uid : UserId)
    (h : NoEmptyDay m) :
    NoEmptyDay ([] : DailyUsers) ∧ NoEmptyDay (track_user m d uid) := by
  refine ⟨fun p hp => absurd hp (List.not_mem_nil p), fun p hp => ?_⟩
  rcases mem_setDay _ _ _ _ hp with h1 | h1
  · rw [h1]
    exact Finset.insert_ne_empty _ _
  · exact h p h1

/-- C8 witness: the invariant holds of the empty map and of one sighting. -/
theorem track_user_no_empty_day_witness :
    NoEmptyDay ([] : DailyUsers) ∧ NoEmptyDay (track_user [] 0 5) :=
  track_user_no_empty_day [] 0 5 (fun p hp => absurd hp (List.not_mem_nil p))

/-! ### The claims about the Reply Sender: C2, C9 -/

/-- C2: for every destination and text, if the messaging-client send raises,
`safe_reply` catches it (it returns normally, never `Except.error`), makes at
most one send attempt (no retry), and — when the update is valid so the send
was attempted at all — logs the failure detail. -/
theorem safe_reply_swallows_send_failure (send : SendFn)
    (update : Option UpdateObj) (text e : String)
    (hsend : send text = Except.error e) :
    srOk (safe_reply send update text) = true ∧
    (srAttempts (safe_reply send update text)).length ≤ 1 ∧
    (updateTruthy update = true →
      srLogs (safe_reply send update text) = ["Telegram reply failed: " ++ e]) := by
  match update with
  | none => simp [safe_reply, srOk, srAttempts, updateTruthy]
  | some u =>
    match hu : u.message with
    | none => simp [safe_reply, hu, srOk, srAttempts, updateTruthy]
    | some msg => simp [safe_reply, hu, hsend, srOk, srAttempts, srLogs, updateTruthy]

/-- C2 witness: a send that raises on a valid update is swallowed, attempted
once, and logged. -/
theorem safe_reply_swallows_send_failure_witness :
    srOk (safe_reply failSend (some u0) "hello") = true ∧
    srLogs (safe_reply failSend (some u0) "hello") =
      ["Telegram reply failed: " ++ "netfail"] :=
  ⟨(safe_reply_swallows_send_failure failSend (some u0) "hello" "netfail" rfl).1,
    (safe_reply_swallows_send_failure failSend (some u0) "hello" "netfail" rfl).2.2 rfl⟩

/-- C9: `safe_reply` called with an absent update, or with an update that has
no message, logs the warning and returns normally with zero send attempts. -/
theorem safe_reply_invalid_update (send : SendFn) (t : String) (user : UserObj) :
    safe_reply send none t = Except.ok ⟨[], [invalidUpdateLog]⟩ ∧
    safe_reply send (some { message := none, effective_user := user }) t =
      Except.ok ⟨[], [invalidUpdateLog]⟩ :=
  ⟨rfl, rfl⟩

/-! ### The claims about the handlers: C1, C4, C5, C6, C10 -/

/-- C1 counterexample: with a completion relay that raises, `dsa` hands
`safe_reply` two texts — the interim reply sent before the AI call and then
the fixed failure message — so it does not produce exactly one outbound
reply whose text is the failure message. -/
theorem dsa_failure_two_replies :
    repliesOf (dsa failGen u0 [] 0) = [dsaInterim, dsaFailText] ∧
    (repliesOf (dsa failGen u0 [] 0)).length ≠ 1 := by
  constructor <;> simp [dsa, failGen, repliesOf]

/-- C1 (amended): if the completion relay raises on every invocation, each
AI-backed handler still returns normally (no exception escapes) and its last
outbound reply is its fixed failure message: `handle_message` produces
exactly the failure reply, while `dsa`, `idea` and `explain` (with a
non-empty argument) produce exactly their interim reply followed by the
failure reply. -/
theorem ai_failure_fixed_reply (gen : GenFn) (u : UpdateObj)
    (args : List String) (m : DailyUsers) (today : Date) (t : String)
    (hgen : ∀ p, ∃ e, gen p = Except.error e)
    (hargs : args ≠ [])
    (hmsg : messageText u = some t) :
    raised (dsa gen u m today) = false ∧
    repliesOf (dsa gen u m today) = [dsaInterim, dsaFailText] ∧
    raised (idea gen u m today) = false ∧
    repliesOf (idea gen u m today) = [ideaInterim, ideaFailText] ∧
    raised (explain gen u args m today) = false ∧
    repliesOf (explain gen u args m today) =
      [explainInterim (String.intercalate " " args),
        explainFailText (String.intercalate " " args)] ∧
    raised (handle_message true gen u m today) = false ∧
    repliesOf (handle_message true gen u m today) = [hmFailText] := by
  obtain ⟨e1, h1⟩ := hgen dsaPrompt
  obtain ⟨e2, h2⟩ := hgen ideaPrompt
  obtain ⟨e3, h3⟩ := hgen (explainPrompt (String.intercalate " " args))
  obtain ⟨e4, h4⟩ := hgen t
  have hne : args.isEmpty = false := by
    cases args with
    | nil => exact absurd rfl hargs
    | cons a as => rfl
  refine ⟨?_, ?_, ?_, ?_, ?_, ?_, ?_, ?_⟩ <;>
    simp [dsa, idea, explain, handle_message, raised, repliesOf,
      h1, h2, h3, h4, hne, hmsg]

/-- C1 witness: the amended statement at a concrete raising relay, a concrete
update carrying text, and the one-word argument list. -/
theorem ai_failure_fixed_reply_witness :
    raised (dsa failGen u0 [] 0) = false ∧
    repliesOf (idea failGen u0 [] 0) = [ideaInterim, ideaFailText] ∧
    repliesOf (explain failGen u0 ["recursion"] [] 0) =
      [explainInterim (String.intercalate " " ["recursion"]),
        explainFailText (String.intercalate " " ["recursion"])] ∧
    repliesOf (handle_message true failGen u0 [] 0) = [hmFailText] := by
  have h := ai_failure_fixed_reply failGen u0 ["recursion"] [] 0 "hi"
    (fun p => ⟨"boom", rfl⟩) (by simp) (by simp [messageText, u0])
  exact ⟨h.1, h.2.2.2.1, h.2.2.2.2.2.1, h.2.2.2.2.2.2.2⟩

/-- C4 counterexample: `explain` invoked with an empty argument list — a
command requiring an argument invoked with none — still records a usage
sighting, because bot.py:170 calls `track_user` before the argument check at
bot.py:171: starting from the empty map, the state after the call is not the
empty map. -/
theorem explain_empty_args_tracks :
    stateOf [] (explain failGen u0 [] [] 0) = track_user [] 0 7 ∧
    stateOf [] (explain failGen u0 [] [] 0) ≠ ([] : DailyUsers) := by
  refine ⟨rfl, ?_⟩
  simp [explain, stateOf, track_user, setDay, daySet, lookupDay, u0]

/-- C4 (amended): every handler except `stats` leaves the usage map equal to
`track_user` applied once for the acting user — including `explain` and
`feedback` invoked with no argument, since their sighting precedes the
argument check — while `stats` records no sighting, and `handle_message`
records none for an event without truthy message text. -/
theorem handlers_track_once (gen : GenFn) (u uN : UpdateObj)
    (args : List String) (adminId : Option Int) (m : DailyUsers)
    (today : Date) (t : String)
    (hsome : messageText u = some t) (hnone : messageText uN = none) :
    stateOf m (start u m today) = track_user m today u.effective_user.id ∧
    stateOf m (help_command u m today) = track_user m today u.effective_user.id ∧
    stateOf m (website u m today) = track_user m today u.effective_user.id ∧
    stateOf m (roadmaps u m today) = track_user m today u.effective_user.id ∧
    stateOf m (blog u m today) = track_user m today u.effective_user.id ∧
    stateOf m (connect u m today) = track_user m today u.effective_user.id ∧
    stateOf m (clear_chat u m today) = track_user m today u.effective_user.id ∧
    stateOf m (dsa gen u m today) = track_user m today u.effective_user.id ∧
    stateOf m (idea gen u m today) = track_user m today u.effective_user.id ∧
    stateOf m (explain gen u args m today) = track_user m today u.effective_user.id ∧
    stateOf m (feedback u args m today) = track_user m today u.effective_user.id ∧
    stateOf m (stats adminId u m today) = m ∧
    stateOf m (handle_message true gen uN m today) = m ∧
    stateOf m (handle_message true gen u m today) =
      track_user m today u.effective_user.id := by
  refine ⟨rfl, rfl, rfl, rfl, rfl, rfl, rfl, ?_, ?_, ?_, ?_, ?_, ?_, ?_⟩
  · cases hg : gen dsaPrompt <;> simp [dsa, hg, stateOf]
  · cases hg : gen ideaPrompt <;> simp [idea, hg, stateOf]
  · cases ha : args.isEmpty <;>
      cases hg : gen (explainPrompt (String.intercalate " " args)) <;>
      simp [explain, ha, hg, stateOf]
  · cases ha : args.isEmpty <;> simp [feedback, ha, stateOf]
  · cases hA : adminMatches adminId u.effective_user.id <;> simp [stats, hA, stateOf]
  · simp [handle_message, hnone, stateOf]
  · cases hg : gen t <;> simp [handle_message, hsome, hg, stateOf]

/-- C4 witness: the amended statement at concrete inputs — a valid text
update, a message-less update, an empty argument list and admin id 0. -/
theorem handlers_track_once_witness :
    stateOf [] (start u0 [] 0) = track_user [] 0 u0.effective_user.id ∧
    stateOf [] (explain failGen u0 [] [] 0) = track_user [] 0 u0.effective_user.id ∧
    stateOf [] (stats (some 0) u0 [] 0) = [] ∧
    stateOf [] (handle_message true failGen uNone [] 0) = [] ∧
    stateOf [] (handle_message true failGen u0 [] 0) =
      track_user [] 0 u0.effective_user.id := by
  have h := handlers_track_once failGen u0 uNone [] (some 0) [] 0 "hi"
    (by simp [messageText, u0]) (by simp [messageText, uNone])
  exact ⟨h.1, h.2.2.2.2.2.2.2.2.2.1, h.2.2.2.2.2.2.2.2.2.2.2.1,
    h.2.2.2.2.2.2.2.2.2.2.2.2.1, h.2.2.2.2.2.2.2.2.2.2.2.2.2⟩

/-- C5 counterexample: with the administrator identifier configured as the
integer 0 and a caller whose identifier is 0 — a match — `stats` still
produces zero outbound replies, because `if ADMIN_ID and ...` (bot.py:209)
treats 0 as falsy. -/
theorem stats_zero_admin_silent :
    uAdmin0.effective_user.id = 0 ∧
    repliesOf (stats (some 0) uAdmin0 [] 0) = [] := by
  constructor <;> rfl

/-- C5 (amended): if the configured administrator identifier is present,
non-zero, and equal to the caller's identifier, `stats` produces exactly one
reply carrying the usage count for the current date and no log line;
otherwise (identifier absent, zero, or different from the caller's) it
produces zero replies and one warning log line. -/
theorem stats_admin_gated (adminId : Option Int) (u : UpdateObj)
    (m : DailyUsers) (today : Date) :
    (adminMatches adminId u.effective_user.id = true →
      repliesOf (stats adminId u m today) = [statsText (countDay m today)] ∧
      logsOf (stats adminId u m today) = []) ∧
    (adminMatches adminId u.effective_user.id = false →
      repliesOf (stats adminId u m today) = [] ∧
      logsOf (stats adminId u m today) = [statsUnauthorizedLog u.effective_user.id]) := by
  cases h : adminMatches adminId u.effective_user.id <;>
    simp [stats, h, repliesOf, logsOf]

/-- C5 witness: admin id 5 and caller 5 pass the truthy check and get exactly
the count reply. -/
theorem stats_admin_gated_witness :
    adminMatches (some 5) uAdmin5.effective_user.id = true ∧
    repliesOf (stats (some 5) uAdmin5 [] 0) = [statsText (countDay [] 0)] :=
  ⟨by decide, ((stats_admin_gated (some 5) uAdmin5 [] 0).1 (by decide)).1⟩

/-- C6: `explain` with an empty argument list replies with the usage guidance
and passes zero prompts to the completion relay, whatever the relay would
have answered. -/
theorem explain_empty_args_no_ai (gen : GenFn) (u : UpdateObj)
    (m : DailyUsers) (today : Date) :
    repliesOf (explain gen u [] m today) = [explainUsageText] ∧
    aiCallsOf (explain gen u [] m today) = [] :=
  ⟨rfl, rfl⟩

/-- C10: `stats` never modifies the usage map — for every configured
administrator identifier, caller, state and date, the `daily_users` state
after the call equals the state before it. -/
theorem stats_frame (adminId : Option Int) (u : UpdateObj) (m : DailyUsers)
    (today : Date) : stateOf m (stats adminId u m today) = m := by
  cases h : adminMatches adminId u.effective_user.id <;> simp [stats, h, stateOf]
